import Mathlib

/-
Verification development for the PilotPro identity and chat store
(src/chat_db.py and src/regi.py), as a shallow embedding in Lean 4.

Modelling conventions:
- Python strings holding chat text are modelled as lists of code points
  (List Nat); `ord`/`chr` arithmetic becomes Nat arithmetic.  Python's
  `chr` raises ValueError outside 0..0x10FFFF: `pyEncrypt` models the
  chat_db.encrypt call with that failure (raised as soon as a shifted
  code point would exceed 0x10FFFF), while the total shift transforms
  `encrypt` and `decrypt` describe the transform on inputs inside chr's
  range, and the theorems using them carry the corresponding bounds, so
  Nat arithmetic coincides with the Python behaviour on the stated
  domains.
- SQLite tables are modelled as Lean lists of rows kept in rowid
  (insertion) order; `ORDER BY id DESC` is modelled as `List.reverse`.
- Fernet ciphertexts are modelled as a structure carrying the encrypting
  key and the payload; decryption with a mismatched key is the model of
  `cryptography.fernet.InvalidToken`.
- Fallible Python code is modelled with `Except`/`Option`; a `try/except`
  that returns `None` becomes a match that yields `none`.
- Nondeterministic inputs (bcrypt salt, the current time, freshly drawn
  uuid session ids) are passed as explicit parameters.
-/

set_option autoImplicit false

/-- Python exception kinds that the chat_db.py and regi.py code paths
under study can raise. -/
inductive PyErr where
  | valueError
  | typeError
  | indexError
  | invalidToken
deriving DecidableEq

/-! ## chat_db.py : CipherCodec (module-level encrypt / decrypt) -/

/-- The shift transform of chat_db.encrypt: each character's code point
moved by +3 (`chr(ord(c) + 3)`).  Total on List Nat; `pyEncrypt` below is
the model of the full encrypt call, adding the ValueError that chr raises
when the shifted code point leaves its range. -/
def encrypt (message : List Nat) : List Nat :=
  message.map (fun c => c + 3)

/-- Model of the chat_db.encrypt call: the loop appends `chr(ord(c) + 3)`
character by character and raises ValueError at the first character whose
shifted code point exceeds 0x10FFFF, the top of chr's range (reachable,
since Python strings may hold code points up to 0x10FFFF). -/
def pyEncrypt : List Nat → Except PyErr (List Nat)
  | [] => Except.ok []
  | c :: cs =>
    if c + 3 ≤ 0x10FFFF then do
      let rest ← pyEncrypt cs
      Except.ok ((c + 3) :: rest)
    else Except.error PyErr.valueError

/-- Model of chat_db.decrypt: an empty (falsy) input returns "" via the
validation branch; otherwise each character's code point is shifted by -3
(`chr(ord(c) - 3)`).  Python's chr would raise for code points below 3;
the theorems below only apply decrypt where every code point is at least 3,
on which domain truncated Nat subtraction is exact. -/
def decrypt (encrypted_message : List Nat) : List Nat :=
  if encrypted_message = [] then []
  else encrypted_message.map (fun c => c - 3)

/-- Printable-character code point (printable ASCII range), the domain the
spec's CipherCodec contract quantifies over. -/
def pyPrintable (c : Nat) : Prop := 32 ≤ c ∧ c ≤ 126

instance (c : Nat) : Decidable (pyPrintable c) := by
  unfold pyPrintable; infer_instance

/-! ## chat_db.py : ChatDatabase

The chat_sessions table: id INTEGER PRIMARY KEY, username, message, role,
encrypted BOOLEAN, response, response_encrypted BOOLEAN.  Rows are stored in
increasing-id order; `nextId` is the next autoassigned rowid. -/

structure ChatRow where
  id : Nat
  username : String
  message : List Nat
  role : String
  encrypted : Bool
  response : List Nat
  response_encrypted : Bool
deriving DecidableEq

structure ChatDb where
  rows : List ChatRow
  nextId : Nat
deriving DecidableEq

/-- Model of ChatDatabase.insert_message(username, message, role, response,
encrypt_message): inside the try block, when encrypt_message is set both
message and response are CipherCodec-encrypted (each call can raise
ValueError via pyEncrypt) and both flags are set, then the row is appended
with the next rowid; the trailing `except Exception` catches any raised
error, only logs it, and inserts nothing, so the method returns with the
store unchanged.  The connection is modelled as open (the
`if not self.conn` guard is the caller's responsibility in the claims). -/
def ChatDatabase.insert_message (db : ChatDb) (username : String) (message : List Nat)
    (role : String) (response : List Nat) (encrypt_message : Bool) : ChatDb :=
  let attempt : Except PyErr ChatDb := do
    let msg ← if encrypt_message then pyEncrypt message else Except.ok message
    let rsp ← if encrypt_message then pyEncrypt response else Except.ok response
    let db2 : ChatDb :=
      { rows := db.rows ++
          [⟨db.nextId, username, msg, role, encrypt_message, rsp, encrypt_message⟩],
        nextId := db.nextId + 1 }
    Except.ok db2
  match attempt with
  | Except.ok db2 => db2
  | Except.error _ => db

/-- Decryption of one fetched row as performed inside get_messages /
get_last_n_messages: `decrypt(message) if encrypted else message`, the role,
and `decrypt(response) if response_encrypted else response`. -/
def ChatDatabase.decryptRow (r : ChatRow) : List Nat × String × List Nat :=
  (if r.encrypted then decrypt r.message else r.message, r.role,
   if r.response_encrypted then decrypt r.response else r.response)

/-- Model of ChatDatabase.get_messages(username): all rows for the username
in rowid order, each decrypted according to its flags, with the constant
role label given to the response. -/
def ChatDatabase.get_messages (db : ChatDb) (username : String) :
    List (List Nat × String × List Nat × String) :=
  (db.rows.filter (fun r => r.username == username)).map (fun r =>
    (if r.encrypted then decrypt r.message else r.message, r.role,
     if r.response_encrypted then decrypt r.response else r.response, "assistant"))

/-- SQLite semantics of `LIMIT ?` with a bound parameter: a negative limit
means no limit at all; a nonnegative limit keeps that many leading rows. -/
def sqliteLimit {α : Type} (n : Int) (l : List α) : List α :=
  if n < 0 then l else l.take n.toNat

/-- Model of ChatDatabase.get_last_n_messages(n, username):
`SELECT ... WHERE username = ? ORDER BY id DESC LIMIT ?` (descending id =
reverse of rowid order, then SQLite LIMIT), each fetched row decrypted
according to its flags.  No reversal back to chronological order is
performed. -/
def ChatDatabase.get_last_n_messages (db : ChatDb) (n : Int) (username : String) :
    List (List Nat × String × List Nat) :=
  (sqliteLimit n ((db.rows.filter (fun r => r.username == username)).reverse)).map
    ChatDatabase.decryptRow

/-! ## regi.py : constants, Python errors, Fernet and bcrypt models -/

/-- ROLES = ['general', 'admin']. -/
def ROLES : List String := ["general", "admin"]

/-- The process-wide master encryption key loaded from the environment
(ENCRYPTION_KEY); its identity is all that matters to the model. -/
def KEY : Nat := 0

/-- SESSION_DURATION = 30 (minutes). -/
def SESSION_DURATION : Nat := 30

/-- A Fernet ciphertext: the model records the encrypting key's identity and
the payload.  Decrypting under any other key is the model of the
InvalidToken failure. -/
structure Fernet (α : Type) where
  key : Nat
  payload : α
deriving DecidableEq

/-- Fernet(k).encrypt(x). -/
def fernet_encrypt {α : Type} (k : Nat) (x : α) : Fernet α := ⟨k, x⟩

/-- Fernet(k).decrypt(c): the payload when the token was made under k,
otherwise the InvalidToken error. -/
def fernet_decrypt {α : Type} (k : Nat) (c : Fernet α) : Except PyErr α :=
  if c.key == k then Except.ok c.payload else Except.error PyErr.invalidToken

/-- A bcrypt hash: bcrypt.hashpw embeds the salt in the digest; the model
records the hashed password and the salt. -/
structure BHash where
  pw : String
  salt : Nat
deriving DecidableEq

/-- bcrypt.hashpw(password, gensalt()). -/
def bcrypt_hashpw (password : String) (salt : Nat) : BHash := ⟨password, salt⟩

/-- bcrypt.checkpw(password, stored). -/
def bcrypt_checkpw (password : String) (h : BHash) : Bool := password == h.pw

/-! ## regi.py : stored tables (users, encryption_keys, sessions) -/

/-- One row of the users table.  encrypted_middle_name is `none` when the
source stored the plain empty string "" (the `len(names) > 2` branch),
matching the falsy check `if user[3]` in authenticate_user. -/
structure UserRow where
  username : String
  password : BHash
  role : String
  encrypted_first_name : Fernet String
  encrypted_middle_name : Option (Fernet String)
  encrypted_last_name : Fernet String
  encrypted_full_name : Fernet String
  encrypted_email : Fernet String
deriving DecidableEq

/-- One row of the encryption_keys table; the stored value is an Option
because the source stores whatever encrypt_user_key returned, which is None
on an encryption failure. -/
structure KeyRow where
  username : String
  encrypted_user_key : Option (Fernet Nat)
deriving DecidableEq

/-- One row of the sessions table; expiration is an absolute time in
seconds. -/
structure SessionRow where
  session_id : String
  username : String
  role : String
  expiration : Nat
deriving DecidableEq

/-- The users.db store: the three tables, each in rowid order. -/
structure RegiState where
  users : List UserRow
  keys : List KeyRow
  sessions : List SessionRow
deriving DecidableEq

/-- The freshly created (empty) store. -/
def emptyRegi : RegiState := ⟨[], [], []⟩

/-! ## regi.py : CryptoHandler -/

/-- Model of every call to CryptoHandler.generate_user_key().  The source
declares it `@staticmethod` but with a `self` parameter; the call sites
(`self.crypto_handler.generate_user_key()`) pass zero arguments, so every
call raises TypeError (missing required positional argument) before the
body that would draw a fresh Fernet key can run. -/
def CryptoHandler.generate_user_key : Except PyErr Nat :=
  Except.error PyErr.typeError

/-- CryptoHandler.encrypt_user_key(user_key, main_key): wraps the user key
under the main key; the try/except returns None on failure, which the model
of Fernet encryption never produces. -/
def CryptoHandler.encrypt_user_key (user_key main_key : Nat) : Option (Fernet Nat) :=
  some (fernet_encrypt main_key user_key)

/-- CryptoHandler.decrypt_user_key(encrypted_user_key, main_key): unwraps
under the main key; the `except Exception: return None` turns the
InvalidToken failure into None. -/
def CryptoHandler.decrypt_user_key (encrypted_user_key : Fernet Nat) (main_key : Nat) :
    Option Nat :=
  match fernet_decrypt main_key encrypted_user_key with
  | Except.ok k => some k
  | Except.error _ => none

/-- CryptoHandler.encrypt_detail_with_key(detail, user_key): Fernet-encrypts
one field under the user key (the except branch never fires in the model). -/
def CryptoHandler.encrypt_detail_with_key (detail : String) (user_key : Nat) :
    Fernet String :=
  fernet_encrypt user_key detail

/-- CryptoHandler.decrypt_detail_with_key(encrypted_detail, user_key): the
user key argument is an Option because authenticate_user passes the result
of decrypt_user_key, which may be None; `Fernet(None)` raises and the
except branch returns None, as does a key mismatch. -/
def CryptoHandler.decrypt_detail_with_key (encrypted_detail : Fernet String)
    (user_key : Option Nat) : Option String :=
  match user_key with
  | none => none
  | some k =>
    match fernet_decrypt k encrypted_detail with
    | Except.ok s => some s
    | Except.error _ => none

/-! ## regi.py : RegiDatabase key storage -/

/-- RegiDatabase.store_encrypted_user_key: INSERT OR REPLACE INTO
encryption_keys. -/
def RegiDatabase.store_encrypted_user_key (st : RegiState) (username : String)
    (encrypted_user_key : Option (Fernet Nat)) : RegiState :=
  { st with keys := st.keys.filter (fun k => k.username != username) ++
      [⟨username, encrypted_user_key⟩] }

/-- RegiDatabase.fetch_encrypted_user_key: SELECT encrypted_user_key FROM
encryption_keys WHERE username = ?; None when the row is absent or holds
NULL. -/
def RegiDatabase.fetch_encrypted_user_key (st : RegiState) (username : String) :
    Option (Fernet Nat) :=
  match st.keys.find? (fun k => k.username == username) with
  | some row => row.encrypted_user_key
  | none => none

/-! ## regi.py : UserManager -/

/-- Python's str.split() with no separator: split on runs of whitespace,
discarding empty pieces.  The accumulator holds the current token reversed. -/
def pySplitAux : List Char → List Char → List String
  | [], cur => if cur = [] then [] else [String.mk cur.reverse]
  | c :: cs, cur =>
    if c.isWhitespace then
      if cur = [] then pySplitAux cs []
      else String.mk cur.reverse :: pySplitAux cs []
    else pySplitAux cs (c :: cur)

def pySplit (s : String) : List String := pySplitAux s.data []

/-- Python list indexing l[i] for a nonnegative index: IndexError when out
of range. -/
def pyIndex {α : Type} (l : List α) (i : Nat) : Except PyErr α :=
  match l.get? i with
  | some x => Except.ok x
  | none => Except.error PyErr.indexError

/-- Model of UserManager.register_user(username, password, full_name, email,
role).  The salt parameter stands for bcrypt.gensalt().  Mirrors the source
line by line: the role check raises ValueError; full_name is split; the
generate_user_key() call (which always raises TypeError, see
CryptoHandler.generate_user_key) comes before names[0]/names[-1] are
indexed; the PII fields are encrypted; the users INSERT either hits the
primary-key IntegrityError (caught, returns False with no write) or
succeeds and is committed, after which the wrapped user key is stored by a
second, separately committed INSERT.  An `Except.error` result models an
exception escaping register_user; no storage write precedes any of the
raising points, so the store argument is unchanged in that case. -/
def UserManager.register_user (st : RegiState) (salt : Nat)
    (username password full_name email role : String) :
    Except PyErr (Bool × RegiState) :=
  if role ∈ ROLES then do
    let names := pySplit full_name
    let user_key ← CryptoHandler.generate_user_key
    let n0 ← pyIndex names 0
    let encrypted_first_name := CryptoHandler.encrypt_detail_with_key n0 user_key
    let nlast ← pyIndex names (names.length - 1)
    let encrypted_last_name := CryptoHandler.encrypt_detail_with_key nlast user_key
    let encrypted_middle_name :=
      if 2 < names.length then
        some (CryptoHandler.encrypt_detail_with_key
          (String.intercalate " " (names.drop 1 |>.dropLast)) user_key)
      else none
    let hashed_password := bcrypt_hashpw password salt
    let encrypted_email := CryptoHandler.encrypt_detail_with_key email user_key
    let encrypted_full_name := CryptoHandler.encrypt_detail_with_key full_name user_key
    if st.users.any (fun u => u.username == username) then
      return (false, st)
    else
      let row : UserRow := ⟨username, hashed_password, role, encrypted_first_name,
        encrypted_middle_name, encrypted_last_name, encrypted_full_name, encrypted_email⟩
      let st2 := { st with users := st.users ++ [row] }
      let encrypted_user_key := CryptoHandler.encrypt_user_key user_key KEY
      let st3 := RegiDatabase.store_encrypted_user_key st2 username encrypted_user_key
      return (true, st3)
  else
    Except.error PyErr.valueError

/-- Model of UserManager.authenticate_user(username, password): fetches the
user row and the wrapped key; returns None when the key row is missing, the
user row is missing, or the password fails bcrypt.checkpw; otherwise
unwraps the user key, decrypts the display fields and returns the pair
(decrypted_full_name, role).  decrypted_full_name is an Option because all
decryption failures were swallowed into None upstream. -/
def UserManager.authenticate_user (st : RegiState) (username password : String) :
    Option (Option String × String) :=
  let user := st.users.find? (fun u => u.username == username)
  let encrypted_user_key := RegiDatabase.fetch_encrypted_user_key st username
  match encrypted_user_key with
  | none => none
  | some ek =>
    let user_key := CryptoHandler.decrypt_user_key ek KEY
    match user with
    | none => none
    | some u =>
      if bcrypt_checkpw password u.password then
        let decrypted_first_name :=
          CryptoHandler.decrypt_detail_with_key u.encrypted_first_name user_key
        let decrypted_middle_name :=
          match u.encrypted_middle_name with
          | some c => CryptoHandler.decrypt_detail_with_key c user_key
          | none => some ""
        let decrypted_last_name :=
          CryptoHandler.decrypt_detail_with_key u.encrypted_last_name user_key
        let decrypted_full_name :=
          CryptoHandler.decrypt_detail_with_key u.encrypted_full_name user_key
        some (decrypted_full_name, u.role)
      else none

/-- Model of UserManager.set_user_role(username, new_role): UPDATE users SET
role = ? WHERE username = ?; no role validation of any kind. -/
def UserManager.set_user_role (st : RegiState) (username new_role : String) : RegiState :=
  { st with users := st.users.map (fun u =>
      if u.username == username then { u with role := new_role } else u) }

/-! ## regi.py : SessionManager -/

/-- Model of SessionManager.terminate_session(session_id): DELETE FROM
sessions WHERE session_id = ?. -/
def SessionManager.terminate_session (st : RegiState) (session_id : String) : RegiState :=
  { st with sessions := st.sessions.filter (fun s => s.session_id != session_id) }

/-- Model of SessionManager.create_session(username, role): inserts a row
whose expiration is now + SESSION_DURATION minutes and returns
(session_id, username).  The session id stands for the freshly drawn
uuid4. -/
def SessionManager.create_session (st : RegiState) (session_id : String) (now : Nat)
    (username role : String) : (String × String) × RegiState :=
  ((session_id, username),
   { st with sessions := st.sessions ++
       [⟨session_id, username, role, now + SESSION_DURATION * 60⟩] })

/-- Model of SessionManager.validate_session(session_id) at current time
`now`: absent row gives (False, None); a fetched row with
`datetime.now() > expiration` is terminated (row deleted) and gives
(False, None); otherwise (True, role).  The returned state is the store
after the side effect. -/
def SessionManager.validate_session (st : RegiState) (now : Nat) (session_id : String) :
    (Bool × Option String) × RegiState :=
  match st.sessions.find? (fun s => s.session_id == session_id) with
  | some s =>
    if s.expiration < now then
      ((false, none), SessionManager.terminate_session st session_id)
    else
      ((true, some s.role), st)
  | none => ((false, none), st)

/-! ## Concrete stores used by counterexamples and witnesses -/

/-- A chat store holding two encrypted rows for "alice": plaintexts [65] and
[66] with responses [70] and [71], inserted in that order. -/
def exChatDb : ChatDb :=
  ChatDatabase.insert_message
    (ChatDatabase.insert_message ⟨[], 0⟩ "alice" [65] "user" [70] true)
    "alice" [66] "user" [71] true

/-- A users-table row for "alice" whose PII is encrypted under user key 7. -/
def exAliceRow : UserRow :=
  { username := "alice", password := ⟨"pw1", 1⟩, role := "general",
    encrypted_first_name := ⟨7, "Alice"⟩, encrypted_middle_name := none,
    encrypted_last_name := ⟨7, "Smith"⟩, encrypted_full_name := ⟨7, "Alice Smith"⟩,
    encrypted_email := ⟨7, "a@x.com"⟩ }

/-- A store in which "alice" is registered: her User row and her single
KeyRecord (user key 7 wrapped under the master key). -/
def exStAlice : RegiState :=
  { users := [exAliceRow], keys := [⟨"alice", some ⟨KEY, 7⟩⟩], sessions := [] }

/-- A store holding one session row that expires at time 100. -/
def exStSession : RegiState :=
  { users := [], keys := [], sessions := [⟨"s1", "alice", "general", 100⟩] }

/-! ## Helper lemmas -/

theorem map_add_sub_three (l : List Nat) :
    (l.map (fun c => c + 3)).map (fun c => c - 3) = l := by
  induction l with
  | nil => rfl
  | cons a t ih =>
    simp only [List.map_cons, List.cons.injEq]
    exact ⟨by omega, ih⟩

theorem map_sub_add_three (l : List Nat) (h : ∀ c ∈ l, 3 ≤ c) :
    (l.map (fun c => c - 3)).map (fun c => c + 3) = l := by
  induction l with
  | nil => rfl
  | cons a t ih =>
    simp only [List.map_cons, List.cons.injEq]
    exact ⟨Nat.sub_add_cancel (h a (List.mem_cons_self a t)),
           ih (fun c hc => h c (List.mem_cons_of_mem a hc))⟩

theorem decrypt_encrypt (m : List Nat) : decrypt (encrypt m) = m := by
  match m with
  | [] => rfl
  | a :: l => simpa [encrypt, decrypt] using map_add_sub_three (a :: l)

theorem encrypt_decrypt (m : List Nat) (h : ∀ c ∈ m, 3 ≤ c) :
    encrypt (decrypt m) = m := by
  match m with
  | [] => rfl
  | a :: l => simpa [encrypt, decrypt] using map_sub_add_three (a :: l) h

/-- On messages whose code points all stay within chr's range after the
+3 shift, the encrypt call succeeds and returns the shift transform. -/
theorem pyEncrypt_ok (m : List Nat) (h : ∀ c ∈ m, c + 3 ≤ 0x10FFFF) :
    pyEncrypt m = Except.ok (encrypt m) := by
  induction m with
  | nil => rfl
  | cons a t ih =>
    unfold pyEncrypt
    rw [if_pos (h a (List.mem_cons_self a t)),
      ih (fun c hc => h c (List.mem_cons_of_mem a hc))]
    rfl

/-- Every call to register_user raises: ValueError when the role fails the
membership check, and otherwise the TypeError raised by the zero-argument
invocation of generate_user_key, reached before any storage write. -/
theorem register_user_raises (st : RegiState) (salt : Nat)
    (username password full_name email role : String) :
    UserManager.register_user st salt username password full_name email role
      = if role ∈ ROLES then Except.error PyErr.typeError
        else Except.error PyErr.valueError := by
  by_cases h : role ∈ ROLES
  · rw [if_pos h]; unfold UserManager.register_user; rw [if_pos h]; rfl
  · rw [if_neg h]; unfold UserManager.register_user; rw [if_neg h]

/-- After DELETE FROM sessions WHERE session_id = ?, no lookup of that id
succeeds. -/
theorem find?_terminate (l : List SessionRow) (sid : String) :
    (l.filter (fun s => s.session_id != sid)).find?
      (fun s => s.session_id == sid) = none := by
  rw [List.find?_eq_none]
  intro x hx
  have h2 := (List.mem_filter.mp hx).2
  simp only [bne_iff_ne, ne_eq] at h2
  simpa [beq_iff_eq] using h2

/-- UPDATE users SET role = ? WHERE username = ? rewrites the matched row's
role to the given value verbatim. -/
theorem find?_set_role (l : List UserRow) (target nr : String) :
    ((l.map (fun u => if u.username == target then { u with role := nr } else u)).find?
        (fun row => row.username == target)).map (fun row => row.role)
      = (l.find? (fun row => row.username == target)).map (fun _ => nr) := by
  induction l with
  | nil => rfl
  | cons a t ih =>
    by_cases h : (a.username == target) = true
    · rw [List.map_cons, if_pos h, List.find?_cons_of_pos, List.find?_cons_of_pos]
      · rfl
      · exact h
      · simpa using h
    · rw [List.map_cons, if_neg h, List.find?_cons_of_neg, List.find?_cons_of_neg]
      · exact ih
      · exact h
      · exact h

/-! ## Claims -/

/-- Claim C1 (code bug): the spec requires register followed by
authenticate(username, password) to return (full_name, role) unchanged for
every valid fresh registration.  In the source, register_user's call
`self.crypto_handler.generate_user_key()` invokes a staticmethod that is
declared with a `self` parameter, passing zero arguments, so every
registration attempt raises TypeError before any row is written; on the
quoted valid input the registration fails and the subsequent
authentication finds nothing and returns None instead of the pair. -/
theorem C1_register_then_authenticate_fails :
    UserManager.register_user emptyRegi 1 "alice" "pw1" "Alice B Smith" "a@x.com" "general"
      = Except.error PyErr.typeError
  ∧ UserManager.authenticate_user emptyRegi "alice" "pw1" = none :=
  ⟨rfl, rfl⟩

/-- Claim C2 (confirmed): for every printable-character string, the
CipherCodec pair satisfies decode(encode(x)) = x and encode(decode(x)) = x;
encode shifts every code point by +3 and decode by -3, and both are total
on printable-character strings. -/
theorem C2_cipher_codec_involution (m : List Nat) (h : ∀ c ∈ m, pyPrintable c) :
    decrypt (encrypt m) = m ∧ encrypt (decrypt m) = m :=
  ⟨decrypt_encrypt m,
   encrypt_decrypt m (fun c hc => le_trans (by omega) (h c hc).1)⟩

/-- Witness for C2 at the concrete printable string with code points
[72, 105] ("Hi"). -/
theorem C2_cipher_codec_involution_witness :
    (∀ c ∈ [72, 105], pyPrintable c)
  ∧ (decrypt (encrypt [72, 105]) = [72, 105]
      ∧ encrypt (decrypt [72, 105]) = [72, 105]) :=
  ⟨by decide, C2_cipher_codec_involution [72, 105] (by decide)⟩

/-- Claim C3 (code bug): the spec requires registration's two storage
writes (User row and KeyRecord) to happen atomically as a unit.  In the
source no call to register_user ever performs either write: every call
raises (ValueError on an invalid role, otherwise the TypeError from the
zero-argument generate_user_key invocation) before the users INSERT is
reached, so the both-or-neither property holds only vacuously; moreover
the source commits the users INSERT before store_encrypted_user_key opens
a second, separately committed connection, so the intended success path is
two transactions, not one atomic unit. -/
theorem C3_register_never_writes (st : RegiState) (salt : Nat)
    (username password full_name email role : String) :
    UserManager.register_user st salt username password full_name email role
      = Except.error PyErr.valueError
  ∨ UserManager.register_user st salt username password full_name email role
      = Except.error PyErr.typeError := by
  by_cases h : role ∈ ROLES
  · exact Or.inr (by rw [register_user_raises, if_pos h])
  · exact Or.inl (by rw [register_user_raises, if_neg h])

/-- Counterexample to claim C4 as stated: unwrapping a payload wrapped
under master key 2 with master key 1 does not surface a distinct
CryptoError — decrypt_user_key catches the failure and returns None, the
very value fetch_encrypted_user_key uses for absent key data. -/
theorem C4_counterexample :
    CryptoHandler.decrypt_user_key ⟨2, 42⟩ 1 = none
  ∧ RegiDatabase.fetch_encrypted_user_key emptyRegi "ghost" = none :=
  ⟨rfl, rfl⟩

/-- Claim C4 (corrected): for every wrapped payload whose wrapping key
differs from the supplied master key, decrypt_user_key swallows the
underlying InvalidToken failure and returns None, indistinguishable from
absent data, instead of surfacing a distinct CryptoError. -/
theorem C4_unwrap_mismatch_returns_none (c : Fernet Nat) (main_key : Nat)
    (h : c.key ≠ main_key) :
    CryptoHandler.decrypt_user_key c main_key = none := by
  simp [CryptoHandler.decrypt_user_key, fernet_decrypt, h]

/-- Witness for C4 at the concrete wrapped payload made under key 5,
unwrapped with key 6. -/
theorem C4_unwrap_mismatch_returns_none_witness :
    ((⟨5, 9⟩ : Fernet Nat).key ≠ 6)
  ∧ CryptoHandler.decrypt_user_key ⟨5, 9⟩ 6 = none :=
  ⟨by decide, C4_unwrap_mismatch_returns_none ⟨5, 9⟩ 6 (by decide)⟩

/-- Counterexample to claim C5 as stated: set_user_role accepts the role
"superuser", which is outside ROLES, and writes it into the stored User
row instead of rejecting it with InvalidRoleError and writing nothing. -/
theorem C5_counterexample :
    ("superuser" ∉ ROLES)
  ∧ (UserManager.set_user_role exStAlice "alice" "superuser").users
      = [{ exAliceRow with role := "superuser" }] := by
  exact ⟨by decide, rfl⟩

/-- Claim C5 (corrected): registration rejects every role outside
{general, admin} with the InvalidRoleError (ValueError) before any write,
but set_user_role performs no role validation at all: it stores the given
role verbatim on the targeted user, so a stored User row can carry an
arbitrary role. -/
theorem C5_role_validation (st : RegiState) (salt : Nat)
    (username password full_name email role : String) (h : role ∉ ROLES)
    (st2 : RegiState) (target new_role : String) :
    UserManager.register_user st salt username password full_name email role
      = Except.error PyErr.valueError
  ∧ ((UserManager.set_user_role st2 target new_role).users.find?
        (fun row => row.username == target)).map (fun row => row.role)
      = (st2.users.find? (fun row => row.username == target)).map
          (fun _ => new_role) := by
  refine ⟨by rw [register_user_raises, if_neg h], ?_⟩
  simpa [UserManager.set_user_role] using find?_set_role st2.users target new_role

/-- Witness for C5: registering with role "root" is rejected with
ValueError, and set_user_role stores the out-of-ROLES role "owner" on
"alice" verbatim. -/
theorem C5_role_validation_witness :
    UserManager.register_user emptyRegi 3 "zoe" "pw" "Zoe Q" "z@x.com" "root"
      = Except.error PyErr.valueError
  ∧ ((UserManager.set_user_role exStAlice "alice" "owner").users.find?
        (fun row => row.username == "alice")).map (fun row => row.role)
      = (exStAlice.users.find? (fun row => row.username == "alice")).map
          (fun _ => "owner") :=
  C5_role_validation emptyRegi 3 "zoe" "pw" "Zoe Q" "z@x.com" "root" (by decide)
    exStAlice "alice" "owner"

/-- Counterexample to claim C6 as stated: on a store holding two rows for
"alice", get_last_n_messages with n = -1 returns all rows rather than an
empty sequence (SQLite treats a negative LIMIT as no limit), and with
n = 5 (exceeding the row count) it returns the rows in descending-id
order, not reversed into chronological order. -/
theorem C6_counterexample :
    ChatDatabase.get_last_n_messages exChatDb (-1) "alice" ≠ []
  ∧ ChatDatabase.get_last_n_messages exChatDb 5 "alice"
      = [([66], "user", [71]), ([65], "user", [70])]
  ∧ ChatDatabase.get_last_n_messages exChatDb 5 "alice"
      ≠ [([65], "user", [70]), ([66], "user", [71])] := by
  refine ⟨by decide, by decide, by decide⟩

/-- Claim C6 (amended): get_last_n_messages returns the empty sequence for
n = 0; for n < 0 the SQLite LIMIT is no limit and all of the user's rows
are returned, decrypted; and when n is at least the user's stored row
count it returns exactly all of the user's rows, decrypted, in
descending-id order (most recent first, with no reversal to chronological
order), without error. -/
theorem C6_get_last_n_messages_spec (db : ChatDb) (n : Int) (u : String) :
    (n = 0 → ChatDatabase.get_last_n_messages db n u = [])
  ∧ (n < 0 → ChatDatabase.get_last_n_messages db n u
      = ((db.rows.filter (fun r => r.username == u)).reverse).map
          ChatDatabase.decryptRow)
  ∧ (((db.rows.filter (fun r => r.username == u)).length : Int) ≤ n →
      ChatDatabase.get_last_n_messages db n u
        = ((db.rows.filter (fun r => r.username == u)).reverse).map
            ChatDatabase.decryptRow) := by
  refine ⟨?_, ?_, ?_⟩
  · rintro rfl
    simp [ChatDatabase.get_last_n_messages, sqliteLimit]
  · intro h
    simp [ChatDatabase.get_last_n_messages, sqliteLimit, h]
  · intro h
    have hn : ¬ n < 0 := by omega
    have hlen : (db.rows.filter (fun r => r.username == u)).reverse.length ≤ n.toNat := by
      rw [List.length_reverse]; omega
    simp [ChatDatabase.get_last_n_messages, sqliteLimit, hn,
      List.take_of_length_le hlen]

/-- Witness for C6 on the concrete two-row store: n = 0 yields the empty
sequence and n = 5 (at least the row count 2) yields all rows decrypted in
descending-id order. -/
theorem C6_get_last_n_messages_spec_witness :
    ChatDatabase.get_last_n_messages exChatDb 0 "alice" = []
  ∧ ChatDatabase.get_last_n_messages exChatDb 5 "alice"
      = ((exChatDb.rows.filter (fun r => r.username == "alice")).reverse).map
          ChatDatabase.decryptRow :=
  ⟨(C6_get_last_n_messages_spec exChatDb 0 "alice").1 rfl,
   (C6_get_last_n_messages_spec exChatDb 5 "alice").2.2 (by decide)⟩

/-- Counterexample to claim C7 as stated: a session row whose expiration
equals the current instant (expiration 100 validated at time 100) is
reported valid, although its expiration is not in the future. -/
theorem C7_counterexample :
    (SessionManager.validate_session exStSession 100 "s1").1
      = (true, some "general")
  ∧ ¬ (100 < 100) :=
  ⟨rfl, by omega⟩

/-- Claim C7 (amended): validate_session returns invalid when no row with
the id exists; when a row exists it returns valid exactly when the current
time does not exceed the recorded expiration (so also at the expiration
instant itself), returning the role recorded at creation time; when the
row exists but its expiration has passed, the row is deleted as a side
effect, invalid is returned, and a subsequent validation of the same id is
again invalid; create_session records the role snapshot with expiration
now + SESSION_DURATION minutes. -/
theorem C7_validate_session_spec (st : RegiState) (now : Nat) (sid : String) :
    (st.sessions.find? (fun s => s.session_id == sid) = none →
      SessionManager.validate_session st now sid = ((false, none), st))
  ∧ (∀ s, st.sessions.find? (fun s => s.session_id == sid) = some s →
      now ≤ s.expiration →
      SessionManager.validate_session st now sid = ((true, some s.role), st))
  ∧ (∀ s, st.sessions.find? (fun s => s.session_id == sid) = some s →
      s.expiration < now →
      SessionManager.validate_session st now sid
        = ((false, none), SessionManager.terminate_session st sid)
      ∧ SessionManager.validate_session
          (SessionManager.terminate_session st sid) now sid
        = ((false, none), SessionManager.terminate_session st sid))
  ∧ (∀ sid2 now0 u role,
      (SessionManager.create_session st sid2 now0 u role).2.sessions
        = st.sessions ++ [⟨sid2, u, role, now0 + SESSION_DURATION * 60⟩]) := by
  refine ⟨?_, ?_, ?_, ?_⟩
  · intro h
    simp [SessionManager.validate_session, h]
  · intro s hs hle
    simp [SessionManager.validate_session, hs, Nat.not_lt.mpr hle]
  · intro s hs hlt
    constructor
    · simp [SessionManager.validate_session, hs, hlt]
    · simp only [SessionManager.validate_session, SessionManager.terminate_session]
      rw [find?_terminate]
  · intro sid2 now0 u role
    rfl

/-- Witness for C7 on the concrete one-session store (expiration 100):
valid at time 50; at time 101 the row is deleted and invalid is returned,
and validating again is still invalid; an unknown id is invalid. -/
theorem C7_validate_session_spec_witness :
    SessionManager.validate_session exStSession 50 "s1"
      = ((true, some "general"), exStSession)
  ∧ SessionManager.validate_session exStSession 101 "s1"
      = ((false, none), SessionManager.terminate_session exStSession "s1")
  ∧ SessionManager.validate_session
      (SessionManager.terminate_session exStSession "s1") 101 "s1"
      = ((false, none), SessionManager.terminate_session exStSession "s1")
  ∧ SessionManager.validate_session exStSession 50 "nope"
      = ((false, none), exStSession) :=
  ⟨(C7_validate_session_spec exStSession 50 "s1").2.1
      ⟨"s1", "alice", "general", 100⟩ rfl (by decide),
   ((C7_validate_session_spec exStSession 101 "s1").2.2.1
      ⟨"s1", "alice", "general", 100⟩ rfl (by decide)).1,
   ((C7_validate_session_spec exStSession 101 "s1").2.2.1
      ⟨"s1", "alice", "general", 100⟩ rfl (by decide)).2,
   (C7_validate_session_spec exStSession 50 "nope").1 rfl⟩

/-- Claim C8 (code bug): the spec (and the source's own
`except sqlite3.IntegrityError: return False` handler) intend a second
registration of an existing username to return False without an exception
and leave the store untouched.  In the source the call never reaches the
uniqueness check: on a store already holding "alice" with her single
KeyRecord, registering "alice" again raises the TypeError from the
zero-argument generate_user_key invocation instead of returning False
(the store argument is unchanged only because the raise precedes every
write). -/
theorem C8_duplicate_register_raises :
    UserManager.register_user exStAlice 2 "alice" "pw2" "Bob J Smith" "b@x.com" "general"
      = Except.error PyErr.typeError :=
  rfl

/-- Counterexample to claim C9 as stated: the code point 0x10FFFD is a
Python-representable plaintext character, but encrypt's chr(ord(c) + 3)
raises ValueError on it (0x110000 is past the top of chr's range),
insert_message's blanket except swallows the error and inserts nothing,
and get_messages then returns a sequence that does not contain the
original message. -/
theorem C9_counterexample :
    ChatDatabase.get_messages
        (ChatDatabase.insert_message ⟨[], 0⟩ "alice" [0x10FFFD] "user" [72] true) "alice"
      = []
  ∧ (ChatDatabase.insert_message ⟨[], 0⟩ "alice" [0x10FFFD] "user" [72] true).rows
      = [] :=
  ⟨rfl, rfl⟩

/-- Claim C9 (amended): for every message and response all of whose code
points still lie within chr's range after the +3 shift (at most 0x10FFFC),
insert_message with encryption enabled followed by get_messages yields the
original plaintext message (and response) in the returned sequence, never
the stored ciphertext; the stored row carries the ciphertext with both
encrypted flags set, and get_messages decrypts every row whose flag is
set.  For a message or response with a larger code point, the encrypt call
raises ValueError and insert_message's blanket except inserts nothing. -/
theorem C9_insert_then_get_messages (db : ChatDb) (u : String) (m : List Nat)
    (role : String) (rsp : List Nat)
    (hm : ∀ c ∈ m, c + 3 ≤ 0x10FFFF) (hr : ∀ c ∈ rsp, c + 3 ≤ 0x10FFFF) :
    ChatDatabase.get_messages (ChatDatabase.insert_message db u m role rsp true) u
      = ChatDatabase.get_messages db u ++ [(m, role, rsp, "assistant")]
  ∧ (ChatDatabase.insert_message db u m role rsp true).rows.getLast?
      = some ⟨db.nextId, u, encrypt m, role, true, encrypt rsp, true⟩ := by
  have hins : ChatDatabase.insert_message db u m role rsp true
      = { rows := db.rows ++
            [⟨db.nextId, u, encrypt m, role, true, encrypt rsp, true⟩],
          nextId := db.nextId + 1 } := by
    simp only [ChatDatabase.insert_message]
    rw [pyEncrypt_ok m hm, pyEncrypt_ok rsp hr]
    rfl
  constructor
  · rw [hins]
    simp [ChatDatabase.get_messages, List.filter_append, decrypt_encrypt]
  · rw [hins]
    simp [List.getLast?_concat]

/-- Witness for C9 at the concrete in-range message [72] and response
[75] on an empty chat store. -/
theorem C9_insert_then_get_messages_witness :
    (∀ c ∈ [72], c + 3 ≤ 0x10FFFF)
  ∧ (∀ c ∈ [75], c + 3 ≤ 0x10FFFF)
  ∧ (ChatDatabase.get_messages
        (ChatDatabase.insert_message ⟨[], 0⟩ "bob" [72] "user" [75] true) "bob"
      = ChatDatabase.get_messages ⟨[], 0⟩ "bob" ++ [([72], "user", [75], "assistant")]
    ∧ (ChatDatabase.insert_message ⟨[], 0⟩ "bob" [72] "user" [75] true).rows.getLast?
      = some ⟨0, "bob", encrypt [72], "user", true, encrypt [75], true⟩) :=
  ⟨by decide, by decide,
   C9_insert_then_get_messages ⟨[], 0⟩ "bob" [72] "user" [75] (by decide) (by decide)⟩

/-- Counterexample to claim C10 as stated: on a full_name with no
whitespace-separated tokens the unhandled exception register raises is
not the IndexError from indexing the empty token list — the TypeError
from the zero-argument generate_user_key invocation is raised first, on
line 425, before names[0] on line 428 is ever evaluated. -/
theorem C10_counterexample :
    UserManager.register_user emptyRegi 1 "bob" "pw" "" "b@x.com" "general"
      = Except.error PyErr.typeError
  ∧ UserManager.register_user emptyRegi 1 "bob" "pw" "" "b@x.com" "general"
      ≠ Except.error PyErr.indexError := by
  refine ⟨rfl, fun hcontra => ?_⟩
  have h2 : (Except.error PyErr.typeError : Except PyErr (Bool × RegiState))
      = Except.error PyErr.indexError := hcontra
  simp at h2

/-- Claim C10 (amended): register raises an unhandled exception - rather
than returning a validation failure value - on every input whose role
passes the membership check, the empty full_name included; the exception
is the TypeError from the generate_user_key call (a staticmethod declared
with a `self` parameter, invoked with zero arguments), which precedes the
indexing of the token list, so registration is not total over string
inputs. -/
theorem C10_register_always_raises (st : RegiState) (salt : Nat)
    (username password full_name email role : String) (h : role ∈ ROLES) :
    UserManager.register_user st salt username password full_name email role
      = Except.error PyErr.typeError := by
  rw [register_user_raises, if_pos h]

/-- Witness for C10 at the concrete input with an empty full_name and the
valid role "general". -/
theorem C10_register_always_raises_witness :
    ("general" ∈ ROLES)
  ∧ UserManager.register_user emptyRegi 7 "carol" "pw" "" "c@x.com" "general"
      = Except.error PyErr.typeError :=
  ⟨by decide,
   C10_register_always_raises emptyRegi 7 "carol" "pw" "" "c@x.com" "general" (by decide)⟩
